import Mathlib

/-!
Verification of the TattooApp image-processing and persistence layer.

The development shallowly embeds the TypeScript sources
`src/utils/designManager.ts`, `src/utils/starVectorProcessor.ts` and
`src/utils/aiImageProcessor.ts`.  External effects (the expo image
manipulator, the file system, HTTP services) are modelled as oracles
gathered in an `Env` record: each oracle returns `Option`/`Bool` results,
`none`/`false` standing for a rejected promise or a thrown error at that
call site.  Strings are modelled at the `List Char` level where the source
performs character-level work (trimming, regex matching, substitution);
every definition is structurally recursive so that concrete inputs
evaluate by `decide`/`rfl`.
-/

/-! ## Character and string utilities

The source uses JavaScript string primitives: `trim`, `startsWith`,
`includes`, case-insensitive regex matching and global regex replacement.
They are modelled here over `List Char`.
-/

/-- ASCII lower-casing of one character, as the `i` regex flag compares. -/
def asciiLower (c : Char) : Char :=
  if 'A' ≤ c ∧ c ≤ 'Z' then Char.ofNat (c.toNat + 32) else c

/-- JavaScript regex whitespace class (the ASCII members plus NBSP and BOM,
the only ones the modelled strings can contain). -/
def isJsWs (c : Char) : Bool :=
  c == ' ' || c == '\t' || c == '\n' || c == '\r' ||
  c.toNat == 11 || c.toNat == 12 || c.toNat == 160 || c.toNat == 0xfeff

/-- Case-sensitive: the pattern is an initial segment of the list
(JavaScript `startsWith`). -/
def csStarts : List Char → List Char → Bool
  | [], _ => true
  | _ :: _, [] => false
  | p :: ps, c :: cs => (p == c) && csStarts ps cs

/-- Case-insensitive (ASCII) prefix test; the pattern is given in lower
case, as in the source's `/.../i` regexes. -/
def ciStarts : List Char → List Char → Bool
  | [], _ => true
  | _ :: _, [] => false
  | p :: ps, c :: cs => (asciiLower c == p) && ciStarts ps cs

/-- Index of the leftmost case-insensitive occurrence of `pat`. -/
def findFirstCI (pat : List Char) : List Char → Option Nat
  | [] => if ciStarts pat [] then some 0 else none
  | c :: rest =>
    if ciStarts pat (c :: rest) then some 0
    else (findFirstCI pat rest).map (· + 1)

/-- Index of the rightmost case-insensitive occurrence of `pat`. -/
def findLastCI (pat : List Char) : List Char → Option Nat
  | [] => if ciStarts pat [] then some 0 else none
  | c :: rest =>
    match findLastCI pat rest with
    | some j => some (j + 1)
    | none => if ciStarts pat (c :: rest) then some 0 else none

/-- Index of the leftmost case-sensitive occurrence of `pat`. -/
def findFirstCS (pat : List Char) : List Char → Option Nat
  | [] => if csStarts pat [] then some 0 else none
  | c :: rest =>
    if csStarts pat (c :: rest) then some 0
    else (findFirstCS pat rest).map (· + 1)

/-- JavaScript `includes` (case-sensitive substring test). -/
def csContains (l pat : List Char) : Bool := (findFirstCS pat l).isSome

/-- JavaScript `trim` on the character list. -/
def jsTrimL (l : List Char) : List Char :=
  ((l.dropWhile isJsWs).reverse.dropWhile isJsWs).reverse

/-- String-level `includes`. -/
def strContains (s pat : String) : Bool := csContains s.data pat.data

/-- String-level case-insensitive `startsWith`. -/
def ciStartsStr (s pat : String) : Bool := ciStarts pat.data s.data

/-! ## The design store (`src/utils/designManager.ts`)

`AsyncStorage` is an optional native module; when it is missing the class
keeps the list in the module-level variable `memoryStorage`.  The store is
modelled as a total key-value map from keys to parsed design lists (JSON
serialisation is assumed faithful), plus the in-memory list and the
module-availability flag.
-/

/-- The `Design` record of `src/types` (the `createdAt` date is carried as
epoch milliseconds). -/
structure Design where
  id : String
  name : String
  uri : String
  category : Option String := none
  isUserGenerated : Option Bool := none
  originalImageUri : Option String := none
  createdAt : Option Nat := none
deriving DecidableEq

/-- Storage key used by every `DesignManager` operation
(`designManager.ts` line 11). -/
def CUSTOM_DESIGNS_KEY : String := "custom_tattoo_designs"

/-- The persistent state `DesignManager` operates on: whether the
AsyncStorage module loaded, the key-value store behind it, and the
in-memory fallback list. -/
structure StorageState where
  asyncStorage : Bool
  store : String → Option (List Design)
  memoryStorage : List Design

/-- `DesignManager.getCustomDesigns` (lines 41-53): read the stored list
under the single key, or the memory list when AsyncStorage is missing. -/
def getCustomDesigns (s : StorageState) : List Design :=
  if s.asyncStorage then (s.store CUSTOM_DESIGNS_KEY).getD [] else s.memoryStorage

/-- `DesignManager.saveCustomDesign` (lines 20-36): prepend the new design
to the current list and write it back. -/
def saveCustomDesign (d : Design) (s : StorageState) : StorageState :=
  let updated := d :: getCustomDesigns s
  if s.asyncStorage then
    { s with store := fun k => if k = CUSTOM_DESIGNS_KEY then some updated else s.store k }
  else
    { s with memoryStorage := updated }

/-- `DesignManager.deleteCustomDesign` (lines 58-74): keep exactly the
designs whose id differs from the argument. -/
def deleteCustomDesign (designId : String) (s : StorageState) : StorageState :=
  let updated := (getCustomDesigns s).filter (fun d => d.id != designId)
  if s.asyncStorage then
    { s with store := fun k => if k = CUSTOM_DESIGNS_KEY then some updated else s.store k }
  else
    { s with memoryStorage := updated }

/-- `DesignManager.getCustomDesign` (lines 79-87): first design with the
given id, or none. -/
def getCustomDesign (designId : String) (s : StorageState) : Option Design :=
  (getCustomDesigns s).find? (fun d => d.id == designId)

/-- `DesignManager.clearAllCustomDesigns` (lines 92-105): remove the key,
or empty the memory list. -/
def clearAllCustomDesigns (s : StorageState) : StorageState :=
  if s.asyncStorage then
    { s with store := fun k => if k = CUSTOM_DESIGNS_KEY then none else s.store k }
  else
    { s with memoryStorage := [] }

/-! Helper lemmas about the design store, shared by several developments. -/

theorem getCustomDesigns_save (d : Design) (s : StorageState) :
    getCustomDesigns (saveCustomDesign d s) = d :: getCustomDesigns s := by
  unfold saveCustomDesign
  by_cases h : s.asyncStorage = true <;> simp [getCustomDesigns, h]

theorem getCustomDesigns_delete (i : String) (s : StorageState) :
    getCustomDesigns (deleteCustomDesign i s) =
      (getCustomDesigns s).filter (fun d => d.id != i) := by
  unfold deleteCustomDesign
  by_cases h : s.asyncStorage = true <;> simp [getCustomDesigns, h]

theorem getCustomDesigns_clear (s : StorageState) :
    getCustomDesigns (clearAllCustomDesigns s) = [] := by
  unfold clearAllCustomDesigns
  by_cases h : s.asyncStorage = true <;> simp [getCustomDesigns, h]

/-! ## Claims C5, C7, C8 -/

/-- C5: saving round-trips through the key-value store.  After
`saveCustomDesign d` completes, `getCustomDesigns` returns exactly the
previously stored list with `d` prepended (newest first), and no key other
than `custom_tattoo_designs` is touched. -/
theorem saveCustomDesign_roundTrip (d : Design) (s : StorageState) :
    getCustomDesigns (saveCustomDesign d s) = d :: getCustomDesigns s ∧
    (∀ k, k ≠ CUSTOM_DESIGNS_KEY → (saveCustomDesign d s).store k = s.store k) := by
  refine ⟨getCustomDesigns_save d s, fun k hk => ?_⟩
  unfold saveCustomDesign
  by_cases h : s.asyncStorage = true <;> simp [h, hk]

/-- C8: deletion removes exactly the designs whose id equals the argument,
keeping all others in their original relative order; deleting an id that
occurs nowhere leaves the stored list unchanged. -/
theorem deleteCustomDesign_filters_by_id (i : String) (s : StorageState) :
    getCustomDesigns (deleteCustomDesign i s) =
      (getCustomDesigns s).filter (fun d => d.id != i) ∧
    ((∀ d ∈ getCustomDesigns s, d.id ≠ i) →
      getCustomDesigns (deleteCustomDesign i s) = getCustomDesigns s) := by
  refine ⟨getCustomDesigns_delete i s, fun hall => ?_⟩
  rw [getCustomDesigns_delete i s]
  apply List.filter_eq_self.mpr
  intro d hd
  simpa using hall d hd

/-- C7: with AsyncStorage missing, the in-memory implementation exhibits the
same observable list semantics as the AsyncStorage-backed one: from
observably equal states, every operation yields observably equal states and
equal return values. -/
theorem memory_fallback_equiv (s₁ s₂ : StorageState)
    (h1 : s₁.asyncStorage = true) (h2 : s₂.asyncStorage = false)
    (h : getCustomDesigns s₁ = getCustomDesigns s₂) :
    (∀ d, getCustomDesigns (saveCustomDesign d s₁) =
          getCustomDesigns (saveCustomDesign d s₂)) ∧
    (∀ i, getCustomDesigns (deleteCustomDesign i s₁) =
          getCustomDesigns (deleteCustomDesign i s₂)) ∧
    (∀ i, getCustomDesign i s₁ = getCustomDesign i s₂) ∧
    getCustomDesigns (clearAllCustomDesigns s₁) =
      getCustomDesigns (clearAllCustomDesigns s₂) := by
  refine ⟨fun d => ?_, fun i => ?_, fun i => ?_, ?_⟩
  · rw [getCustomDesigns_save, getCustomDesigns_save, h]
  · rw [getCustomDesigns_delete, getCustomDesigns_delete, h]
  · unfold getCustomDesign
    rw [h]
  · rw [getCustomDesigns_clear, getCustomDesigns_clear]

/-- Witness for C7 at concrete states: an AsyncStorage-backed state and a
memory-backed state holding the same one-design list. -/
def wDesign : Design := { id := "d1", name := "Wolf", uri := "u1" }

def wStoreState₁ : StorageState :=
  { asyncStorage := true,
    store := fun k => if k = CUSTOM_DESIGNS_KEY then some [wDesign] else none,
    memoryStorage := [] }

def wStoreState₂ : StorageState :=
  { asyncStorage := false, store := fun _ => none, memoryStorage := [wDesign] }

theorem memory_fallback_equiv_witness :
    getCustomDesigns (saveCustomDesign wDesign wStoreState₁) =
      getCustomDesigns (saveCustomDesign wDesign wStoreState₂) :=
  (memory_fallback_equiv wStoreState₁ wStoreState₂ rfl rfl (by
    simp [getCustomDesigns, wStoreState₁, wStoreState₂])).1 wDesign

/-! ## Regex models used by `starVectorProcessor.ts`

`validateAndCleanSVG` (lines 645-665) matches `/<svg[\s\S]*<\/svg>/i`
(greedy, case-insensitive) and then performs two global replacements,
`/\n\s*\n/g → "\n"` and `/>\s+</g → "><"`.  `extractSVGFromResponse`
(lines 879-883) matches the lazy variant `/<svg[\s\S]*?<\/svg>/i`.
-/

def svgOpenL : List Char := "<svg".data

def svgCloseL : List Char := "</svg>".data

/-- The greedy match `/<svg[\s\S]*<\/svg>/i`: from the leftmost
case-insensitive `<svg` to the end of the rightmost `</svg>`.  (No
occurrence of `</svg>` can begin strictly inside an occurrence of `<svg`,
so the leftmost viable start is the leftmost `<svg`.) -/
def regexSvgMatchGreedy (l : List Char) : Option (List Char) :=
  match findFirstCI svgOpenL l with
  | none => none
  | some i =>
    match findLastCI svgCloseL l with
    | none => none
    | some p => if i + 4 ≤ p then some ((l.drop i).take (p + 6 - i)) else none

/-- The lazy match `/<svg[\s\S]*?<\/svg>/i`: from the leftmost
case-insensitive `<svg` to the end of the first `</svg>` after it. -/
def regexSvgMatchLazy (l : List Char) : Option (List Char) :=
  match findFirstCI svgOpenL l with
  | none => none
  | some i =>
    match findFirstCI svgCloseL (l.drop (i + 4)) with
    | none => none
    | some q => some ((l.drop i).take (4 + q + 6))

/-- `StarVectorProcessor.extractSVGFromResponse` (lines 879-883). -/
def extractSVGFromResponse (response : String) : Option String :=
  (regexSvgMatchLazy response.data).map (fun l => String.mk l)

/-- Index of the last newline of a list, if any. -/
def lastNewlineIdx : List Char → Option Nat
  | [] => none
  | c :: r =>
    match lastNewlineIdx r with
    | some j => some (j + 1)
    | none => if c == '\n' then some 0 else none

/-- Scanner for the global replacement `/\n\s*\n/g → "\n"`; the fuel
argument bounds the recursion and any fuel at least the list length is
exact. -/
def rmelGo : Nat → List Char → List Char
  | _, [] => []
  | 0, l => l
  | n + 1, c :: r =>
    if c == '\n' then
      match lastNewlineIdx (r.takeWhile isJsWs) with
      | some m => '\n' :: rmelGo n (r.drop (m + 1))
      | none => c :: rmelGo n r
    else c :: rmelGo n r

/-- The source's first cleanup replacement: collapse runs of blank lines. -/
def rmEmptyLines (l : List Char) : List Char := rmelGo l.length l

/-- Scanner for the global replacement `/>\s+</g → "><"`. -/
def rmtGo : Nat → List Char → List Char
  | _, [] => []
  | 0, l => l
  | n + 1, c :: r =>
    if c == '>' then
      let w := (r.takeWhile isJsWs).length
      if 0 < w then
        match r.drop w with
        | '<' :: _ => '>' :: '<' :: rmtGo n (r.drop (w + 1))
        | _ => c :: rmtGo n r
      else c :: rmtGo n r
    else c :: rmtGo n r

/-- The source's second cleanup replacement: drop whitespace between tags. -/
def rmTagWs (l : List Char) : List Char := rmtGo l.length l

/-- Both cleanup replacements of `validateAndCleanSVG`, in source order. -/
def cleanupL (l : List Char) : List Char := rmTagWs (rmEmptyLines l)

/-- `StarVectorProcessor.validateAndCleanSVG` (lines 645-665) on character
lists: trim; accept input starting with `<svg`; otherwise extract a greedy
case-insensitive `<svg ... </svg>` fragment; otherwise throw
`Invalid SVG code generated`; finally run both cleanup replacements. -/
def validateAndCleanSVGL (l : List Char) : Except String (List Char) :=
  let cleaned := jsTrimL l
  if csStarts svgOpenL cleaned then .ok (cleanupL cleaned)
  else
    match regexSvgMatchGreedy cleaned with
    | some frag => .ok (cleanupL frag)
    | none => .error "Invalid SVG code generated"

/-- String-level `validateAndCleanSVG`. -/
def validateAndCleanSVG (svgCode : String) : Except String String :=
  (validateAndCleanSVGL svgCode.data).map (fun l => String.mk l)

/-- `StarVectorProcessor.validateBase64Image` (lines 888-904): a base64
string is a valid image when it carries a JPEG/PNG/GIF header and is longer
than 100 characters. -/
def validateBase64Image (base64 : String) : Bool :=
  (base64.startsWith "/9j/" || base64.startsWith "iVBOR" || base64.startsWith "R0lGOD")
    && base64.length > 100

/-! ## The global substitutions of `optimizeSVGForTattoo` (lines 625-640)

Each substitution is a global replacement of a literal, then `\s*`, then a
nonempty character-class run (`[\d.]+` or `[^;]+`).  The extent function
mirrors the regex backtracking: the maximal whitespace run, then a
class run; when the class run is empty but whitespace is nonempty and its
last character lies in the class, the engine gives one character back.
-/

/-- Length matched by `\s*CLASS+` at the head of `l`, if it matches. -/
def wsClsExtent (cls : Char → Bool) (l : List Char) : Option Nat :=
  let w := (l.takeWhile isJsWs).length
  let r := ((l.drop w).takeWhile cls).length
  if 0 < r then some (w + r)
  else if 0 < w && cls (((l.take w).getLast?).getD ' ') then some w
  else none

/-- Scanner for a global replacement of `LIT\s*CLASS+` by `repl`. -/
def slwcGo (lit : List Char) (cls : Char → Bool) (repl : List Char) :
    Nat → List Char → List Char
  | _, [] => []
  | 0, l => l
  | n + 1, c :: r =>
    if csStarts lit (c :: r) then
      match wsClsExtent cls ((c :: r).drop lit.length) with
      | some m => repl ++ slwcGo lit cls repl n (((c :: r).drop lit.length).drop m)
      | none => c :: slwcGo lit cls repl n r
    else c :: slwcGo lit cls repl n r

/-- Global replacement of `LIT\s*CLASS+` by `repl` over a list. -/
def substLitWsClass (lit : List Char) (cls : Char → Bool) (repl : List Char)
    (l : List Char) : List Char :=
  slwcGo lit cls repl l.length l

/-- JavaScript `String.replace` with a string pattern: replace the first
case-sensitive occurrence only. -/
def replaceFirstL (pat repl : List Char) : List Char → List Char
  | [] => []
  | c :: r =>
    if csStarts pat (c :: r) then repl ++ (c :: r).drop pat.length
    else c :: replaceFirstL pat repl r

def isDigitDot (c : Char) : Bool := c.isDigit || c == '.'

def notSemi (c : Char) : Bool := !(c == ';')

/-- The tag text `optimizeSVGForTattoo` substitutes for the first `<svg`. -/
def tagReplL : List Char :=
  ("<svg data-tattoo-design=\"true\" data-generated-by=\"starvector\"").data

/-- `StarVectorProcessor.optimizeSVGForTattoo` (lines 625-640) on lists:
normalise `stroke-width`, `stroke` and `fill`, then tag the root element. -/
def optL (l : List Char) : List Char :=
  replaceFirstL svgOpenL tagReplL
    (substLitWsClass ("fill:").data notSemi ("fill: #000").data
      (substLitWsClass ("stroke:").data notSemi ("stroke: #000").data
        (substLitWsClass ("stroke-width:").data isDigitDot ("stroke-width: 3").data l)))

/-- String-level `optimizeSVGForTattoo`. -/
def optimizeSVGForTattoo (svgCode : String) : String := String.mk (optL svgCode.data)

/-! ## The effect environment

Each call into an optional module or network service is an oracle; `none`
(or `false`) stands for a thrown error / rejected promise / null result at
that call site.  Module-availability booleans model the `try { require }`
guards at the top of both processor files.
-/

/-- The distinct `ImageManipulator.manipulateAsync` call sites of the two
processors; each gets its own oracle slot. -/
inductive ManipCall
  | preprocess
  | localBg1
  | localBg2
  | smartCrop
  | lineArt
  | styling (autoContrast : Bool)
  | ultimate
  | prepareSV
deriving DecidableEq

inductive BgService
  | removeBg
  | clipdrop
deriving DecidableEq

/-- The ambient world the two processors run in. -/
structure Env where
  /-- expo-image-manipulator loaded. -/
  imageManipulator : Bool
  /-- expo-file-system loaded. -/
  fileSystem : Bool
  /-- the `@huggingface/inference` module loaded. -/
  hfModule : Bool
  /-- `new HfInference(token)` succeeds. -/
  hfCtorOk : Bool
  /-- `AI_SERVICES.REMOVE_BG.apiKey` is set. -/
  removeBgKey : Bool
  /-- `AI_SERVICES.CLIPDROP.apiKey` is set. -/
  clipdropKey : Bool
  /-- result uri of each `manipulateAsync` call; `none` = the call threw. -/
  manip : ManipCall → String → Option String
  /-- `tryRemoveBgAPI` (lines 377-421): saved file path, or `null`. -/
  tryRemoveBg : String → Option String
  /-- `tryClipDropAPI` (lines 426-470): saved file path, or `null`. -/
  tryClipDrop : String → Option String
  /-- `FileSystem.readAsStringAsync`; `none` = rejected. -/
  readAsString : String → Option String
  /-- `checkLocalStarVector` (lines 84-100): local server healthy. -/
  checkLocal : Bool
  /-- `callLocalStarVector` (lines 105-147) on (base64, model): the
  returned `svg_code`, or `null`. -/
  callLocal : String → String → Option String
  /-- the content string the HuggingFace chat/text-generation API returns
  for (base64, model), before `extractSVGFromResponse`; `none` = no
  usable response (`callStarVectorAPI` then yields `null`). -/
  apiContent : String → String → Option String
  /-- `FileSystem.writeAsStringAsync` of the SVG file succeeds. -/
  writeFile : String → Bool
  /-- `convertSVGToPNG`/`createTattooImageFallback` first attempt
  (lines 702-734): display uri, or `none` = threw. -/
  convertPNG : String → Option String
  /-- `createTattooImageFallback` retry inside `saveSVGToFile`'s catch
  (lines 690-696): display uri, or `none` = threw. -/
  fallbackImage : String → Option String
  /-- dimensions `generateSVGFromAnalysis` reads via `manipulateAsync`
  (lines 519-531); `none` = that call threw (defaults are kept). -/
  dims : String → Option (Nat × Nat)

/-! ## `StarVectorProcessor` state (`src/utils/starVectorProcessor.ts`) -/

/-- The class statics: `hf` (whether a HuggingFace client object was
constructed), `isInitialized` and `cpuModeEnabled` (lines 45-47). -/
structure SVState where
  hf : Bool := false
  isInitialized : Bool := false
  cpuModeEnabled : Bool := false
deriving DecidableEq

/-- The statics' initial values. -/
def initialSVState : SVState := {}

/-- `StarVectorProcessor.initialize` (lines 52-79): CPU mode marks the
processor initialized without constructing a client; otherwise a client is
constructed only when the module loaded and a token was given.  Returns
the source's boolean result together with the updated statics. -/
def initializeSV (env : Env) (huggingFaceToken : Option String)
    (enableCPUMode : Bool) (s : SVState) : Bool × SVState :=
  if enableCPUMode then
    (true, { s with cpuModeEnabled := true, isInitialized := true })
  else if !env.hfModule then (false, s)
  else
    match huggingFaceToken with
    | some _ =>
      if env.hfCtorOk then (true, { s with hf := true, isInitialized := true })
      else (false, s)
    | none => (false, s)

/-- `StarVectorProcessor.isAvailable` (lines 940-942):
`isInitialized && !!this.hf && !!HfInference`. -/
def isAvailable (env : Env) (s : SVState) : Bool :=
  s.isInitialized && s.hf && env.hfModule

/-! ## StarVector processing (`src/utils/starVectorProcessor.ts`) -/

/-- `StarVectorResult` (lines 34-42). -/
structure StarVectorResult where
  success : Bool
  svgCode : Option String := none
  svgUri : Option String := none
  originalImageUri : String
  processingSteps : List String
  error : Option String := none
  model : Option String := none

/-- The `'1b' | '8b'` model selector. -/
inductive SVModel
  | m1b
  | m8b
deriving DecidableEq

/-- `StarVectorOptions` (lines 24-32).  `temperature` is a float forwarded
verbatim to the HTTP oracles and is omitted; no claim depends on it. -/
structure StarVectorOptions where
  model : Option SVModel := none
  maxTokens : Option Nat := none
  useHuggingFace : Option Bool := none
  huggingFaceToken : Option String := none
  useCPUMode : Option Bool := none

/-- `prepareImageForStarVector` (lines 290-311): resize via the
manipulator, falling back to the original uri on a missing module or a
thrown call. -/
def prepareImageForStarVector (env : Env) (imageUri : String) : String :=
  if !env.imageManipulator then imageUri
  else
    match env.manip ManipCall.prepareSV imageUri with
    | some u => u
    | none => imageUri

/-- `saveSVGToFile` (lines 670-697): throws when the file-system module is
missing or the write rejects; then tries `convertSVGToPNG`, and on its
failure retries `createTattooImageFallback`, whose failure propagates as
`Could not create any design output`.  Both attempts require the image
manipulator. -/
def saveSVGToFile (env : Env) (svgCode : String) : Except String String :=
  if !env.fileSystem then .error "FileSystem not available"
  else if !env.writeFile svgCode then .error "SVG write failed"
  else if !env.imageManipulator then .error "ImageManipulator not available"
  else
    match env.convertPNG svgCode with
    | some png => .ok png
    | none =>
      match env.fallbackImage svgCode with
      | some u => .ok u
      | none => .error "Could not create any design output"

/-- The mock analysis record `analyzeImageForVectors` returns
(lines 501-510): the source performs no actual analysis. -/
structure VectorAnalysis where
  shapes : List String
  colors : List String
  complexity : String
  recommendedPrimitives : List String

/-- `analyzeImageForVectors` (lines 501-510). -/
def analyzeImageForVectors (_imageUri : String) : VectorAnalysis :=
  { shapes := ["circle", "path", "rect"],
    colors := ["#000000", "#333333"],
    complexity := "medium",
    recommendedPrimitives := ["path", "circle"] }

/-- The SVG template of `generateSVGFromAnalysis` (lines 538-617).  The
source interpolates floating-point coordinates into a large fixed
document; the layout numbers are irrelevant to every claim, so the
coordinates are rendered with Nat arithmetic and the decorative middle is
abbreviated, keeping the parts the later substitutions act on: the
document begins with `<svg width=...` and carries the style block with
`stroke-width`, `stroke` and `fill` declarations. -/
def svgTemplate (w h : Nat) : String :=
  "<svg" ++ (" width=\"" ++ (toString w ++ ("\" height=\"" ++ (toString h ++
  ("\" viewBox=\"0 0 " ++ (toString w ++ (" " ++ (toString h ++
  ("\" xmlns=\"http://www.w3.org/2000/svg\">" ++
  ("<defs><style>.main-stroke \x7b fill: none; stroke: #000; stroke-width: 4; \x7d " ++
  (".detail-stroke \x7b fill: none; stroke: #000; stroke-width: 2; \x7d " ++
  (".accent-fill \x7b fill: #000; stroke: none; \x7d</style></defs>" ++
  ("<g id=\"primary-design\"><circle class=\"main-stroke\" cx=\"" ++
  (toString (w / 2) ++ ("\" cy=\"" ++ (toString (h / 2) ++ ("\" r=\"" ++
  (toString (min w h * 3 / 10) ++ ("\"/></g>" ++
  "<metadata><tattoo-design generator=\"StarVector-inspired\"/></metadata></svg>"
  )))))))))))))))))))

/-- `generateSVGFromAnalysis` (lines 515-620): read the image dimensions
through the manipulator (capped at 800, defaulting to 400 x 400 when the
module is missing or the call throws) and emit the template. -/
def generateSVGFromAnalysis (env : Env) (_analysis : VectorAnalysis)
    (imageUri : String) : String :=
  let wh : Nat × Nat :=
    if env.imageManipulator then
      match env.dims imageUri with
      | some (w, h) => (min w 800, min h 800)
      | none => (400, 400)
    else (400, 400)
  svgTemplate wh.1 wh.2

/-- `processWithLocalStarVector` (lines 448-496): analyse, generate,
optimise, save; a throw from `saveSVGToFile` is caught and becomes a
`success: false` result. -/
def processWithLocalStarVector (env : Env) (imageUri : String)
    (_options : StarVectorOptions) : StarVectorResult :=
  let analysis := analyzeImageForVectors imageUri
  let svgCode := generateSVGFromAnalysis env analysis imageUri
  let optimized := optimizeSVGForTattoo svgCode
  let steps := ["Image analyzed for vector elements", "SVG structure generated",
                "SVG optimized for tattoo design"]
  match saveSVGToFile env optimized with
  | .error e =>
    { success := false, originalImageUri := imageUri, processingSteps := steps,
      error := some e }
  | .ok svgUri =>
    { success := true, svgCode := some optimized, svgUri := some svgUri,
      originalImageUri := imageUri, processingSteps := steps ++ ["SVG file saved"],
      model := some "local-starvector-inspired" }

/-- `callStarVectorAPI` (lines 316-395) together with its text-generation
fallback (lines 400-443): every successful HTTP response path funnels the
returned content through `extractSVGFromResponse`, and every error path
yields `null`.  The oracle `apiContent` is the content string of a
successful response, if any. -/
def callStarVectorAPI (env : Env) (imageBase64 : String) (model : String) :
    Option String :=
  (env.apiContent imageBase64 model).bind extractSVGFromResponse

/-- The catch handler of `imageToSVG` (lines 258-284): fall back to
`processWithLocalStarVector` (which never throws, so the handler's own
catch is unreachable) and prepend the steps accumulated up to the throw
plus the error note. -/
def svCatchFallback (env : Env) (imageUri : String) (opts : StarVectorOptions)
    (msg : String) (steps : List String) : StarVectorResult :=
  let fb := processWithLocalStarVector env imageUri opts
  { fb with processingSteps := steps ++ ("Error in main processing: " ++ msg) :: fb.processingSteps }

/-- Step 6 of `imageToSVG` (lines 245-256): enhanced local processing with
merged step lists, returned whether or not it succeeded. -/
def imageToSVGLocalFallback (env : Env) (imageUri : String)
    (opts : StarVectorOptions) (steps : List String) : StarVectorResult :=
  let lr := processWithLocalStarVector env imageUri opts
  { lr with processingSteps := (steps ++ ["StarVector models not available"]) ++ lr.processingSteps }

/-- Step 5 of `imageToSVG` (lines 217-243): the HuggingFace API attempt,
guarded by `isInitialized && this.hf`; a validation or save throw is
caught by the surrounding handler. -/
def imageToSVGTryAPI (env : Env) (sv : SVState) (imageUri : String)
    (opts : StarVectorOptions) (model : String) (imageBase64 : String)
    (steps : List String) : StarVectorResult :=
  if sv.isInitialized && sv.hf then
    match callStarVectorAPI env imageBase64 model with
    | some svgCode =>
      match validateAndCleanSVG svgCode with
      | .error e =>
        svCatchFallback env imageUri opts e
          (steps ++ ["SVG code generated by StarVector HuggingFace API"])
      | .ok cleaned =>
        match saveSVGToFile env cleaned with
        | .error e =>
          svCatchFallback env imageUri opts e
            (steps ++ ["SVG code generated by StarVector HuggingFace API",
                       "SVG code validated and cleaned"])
        | .ok svgUri =>
          { success := true, svgCode := some cleaned, svgUri := some svgUri,
            originalImageUri := imageUri,
            processingSteps := steps ++
              ["SVG code generated by StarVector HuggingFace API",
               "SVG code validated and cleaned", "SVG file saved"],
            model := some model }
    | none => imageToSVGLocalFallback env imageUri opts steps
  else imageToSVGLocalFallback env imageUri opts steps

/-- `StarVectorProcessor.imageToSVG` (lines 152-285): prepare the image,
read it as base64 (a missing file-system module or a rejected read
throws), validate the base64 header, pick the model, try the local CPU
server when CPU mode is on, then the HuggingFace API, then enhanced local
processing; any throw lands in the catch handler `svCatchFallback`. -/
def imageToSVG (env : Env) (sv : SVState) (imageUri : String)
    (opts : StarVectorOptions) : StarVectorResult :=
  let steps0 : List String := ["Image prepared for StarVector processing"]
  let prepared := prepareImageForStarVector env imageUri
  if !env.fileSystem then
    svCatchFallback env imageUri opts "FileSystem not available" steps0
  else
    match env.readAsString prepared with
    | none => svCatchFallback env imageUri opts "Image read failed" steps0
    | some imageBase64 =>
      if !validateBase64Image imageBase64 then
        svCatchFallback env imageUri opts
          "Invalid image format for StarVector processing" steps0
      else
        let model := if opts.model == some SVModel.m8b
          then "starvector/starvector-8b-im2svg" else "starvector/starvector-1b-im2svg"
        let steps1 := steps0 ++ ["Using " ++ model ++ " model"]
        if sv.cpuModeEnabled || opts.useCPUMode.getD false then
          if env.checkLocal then
            match env.callLocal imageBase64 model with
            | some localSvg =>
              match validateAndCleanSVG localSvg with
              | .error e =>
                svCatchFallback env imageUri opts e
                  (steps1 ++ ["SVG generated using local CPU StarVector"])
              | .ok cleaned =>
                match saveSVGToFile env cleaned with
                | .error e =>
                  svCatchFallback env imageUri opts e
                    (steps1 ++ ["SVG generated using local CPU StarVector",
                                "SVG code validated and cleaned"])
                | .ok svgUri =>
                  { success := true, svgCode := some cleaned, svgUri := some svgUri,
                    originalImageUri := imageUri,
                    processingSteps := steps1 ++
                      ["SVG generated using local CPU StarVector",
                       "SVG code validated and cleaned", "SVG file saved"],
                    model := some (model ++ " (Local CPU)") }
            | none => imageToSVGTryAPI env sv imageUri opts model imageBase64 steps1
          else
            imageToSVGTryAPI env sv imageUri opts model imageBase64
              (steps1 ++ ["Local CPU StarVector not available"])
        else imageToSVGTryAPI env sv imageUri opts model imageBase64 steps1

/-! ## The AI image processor (`src/utils/aiImageProcessor.ts`) -/

inductive OutFormat
  | PNG
  | SVG
deriving DecidableEq

/-- `ProcessingOptions` (lines 16-28); `none` models an absent field. -/
structure ProcessingOptions where
  removeBackground : Option Bool := none
  enhanceEdges : Option Bool := none
  convertToLineArt : Option Bool := none
  autoContrast : Option Bool := none
  smartCrop : Option Bool := none
  useAI : Option Bool := none
  outputFormat : Option OutFormat := none
  useStarVector : Option Bool := none
  starVectorModel : Option SVModel := none
  fallbackToLocal : Option Bool := none
  useCPUMode : Option Bool := none

/-- `ProcessingResult` (lines 30-39). -/
structure ProcessingResult where
  success : Bool
  processedImageUri : Option String := none
  originalImageUri : String
  processingSteps : List String
  error : Option String := none
  format : Option OutFormat := none
  svgCode : Option String := none
  model : Option String := none

/-- The spread `{ ...AI_PROCESSING_DEFAULTS, ...options }` (line 87) with
the defaults of `src/constants/aiConfig.ts` (AI_PROCESSING_DEFAULTS):
every flag defaults to `true` except `useCPUMode`; the model defaults to
`'1b'` and the output format to `'SVG'`.  (The defaults object's extra
`preferSVG` key is outside `ProcessingOptions` and read by nothing.) -/
def mergeDefaults (o : ProcessingOptions) : ProcessingOptions :=
  { removeBackground := some (o.removeBackground.getD true),
    enhanceEdges := some (o.enhanceEdges.getD true),
    convertToLineArt := some (o.convertToLineArt.getD true),
    autoContrast := some (o.autoContrast.getD true),
    smartCrop := some (o.smartCrop.getD true),
    useAI := some (o.useAI.getD true),
    outputFormat := some (o.outputFormat.getD OutFormat.SVG),
    useStarVector := some (o.useStarVector.getD true),
    starVectorModel := some (o.starVectorModel.getD SVModel.m1b),
    fallbackToLocal := some (o.fallbackToLocal.getD true),
    useCPUMode := some (o.useCPUMode.getD false) }

/-- `preprocessForAI` (lines 330-350): resize/compress, or the input uri
when the module is missing or the call throws. -/
def preprocessForAI (env : Env) (imageUri : String) : String :=
  if !env.imageManipulator then imageUri
  else
    match env.manip ManipCall.preprocess imageUri with
    | some u => u
    | none => imageUri

/-- `localBackgroundRemoval` (lines 475-504): two chained manipulator
calls; a missing module or a throw in either yields the input uri. -/
def localBackgroundRemoval (env : Env) (imageUri : String) : String :=
  if !env.imageManipulator then imageUri
  else
    match env.manip ManipCall.localBg1 imageUri with
    | none => imageUri
    | some resized =>
      match env.manip ManipCall.localBg2 resized with
      | none => imageUri
      | some highContrast => highContrast

/-- `smartCrop` (lines 509-537). -/
def smartCrop (env : Env) (imageUri : String) : String :=
  if !env.imageManipulator then imageUri
  else
    match env.manip ManipCall.smartCrop imageUri with
    | some u => u
    | none => imageUri

/-- `convertToLineArt` (lines 542-560). -/
def convertToLineArt (env : Env) (imageUri : String) : String :=
  if !env.imageManipulator then imageUri
  else
    match env.manip ManipCall.lineArt imageUri with
    | some u => u
    | none => imageUri

/-- `applyTattooStyling` (lines 565-585); `autoContrast` only selects the
compression and so parametrises the oracle slot. -/
def applyTattooStyling (env : Env) (imageUri : String)
    (autoContrast : Bool) : String :=
  if !env.imageManipulator then imageUri
  else
    match env.manip (ManipCall.styling autoContrast) imageUri with
    | some u => u
    | none => imageUri

/-- `removeBackgroundAI` (lines 355-372): Remove.bg is attempted only with
its key set; on its `null` ClipDrop is attempted only with its key set;
otherwise `null`.  The second component records which services were
attempted, in order.  (Both `try*API` helpers catch all their errors, so
the surrounding catch is unreachable.) -/
def removeBackgroundAI (env : Env) (imageUri : String) :
    Option String × List BgService :=
  if env.removeBgKey then
    match env.tryRemoveBg imageUri with
    | some r => (some r, [BgService.removeBg])
    | none =>
      if env.clipdropKey then
        (env.tryClipDrop imageUri, [BgService.removeBg, BgService.clipdrop])
      else (none, [BgService.removeBg])
  else if env.clipdropKey then (env.tryClipDrop imageUri, [BgService.clipdrop])
  else (none, [])

/-- `traditionalProcessingPipeline` (lines 172-232): preprocess, then the
three conditional stages, then styling; each stage appends its step
string.  No stage can throw (every helper catches), so the pipeline always
returns its success record. -/
def traditionalProcessingPipeline (env : Env) (imageUri : String)
    (options : ProcessingOptions) (existingSteps : List String) :
    ProcessingResult :=
  let steps0 := existingSteps ++ ["Using traditional processing pipeline"]
  let u1 := preprocessForAI env imageUri
  let steps1 := steps0 ++ ["Image preprocessed"]
  let bg : String × List String :=
    if options.removeBackground.getD false then
      match (removeBackgroundAI env u1).1 with
      | some b => (b, steps1 ++ ["Background removed using AI"])
      | none => (localBackgroundRemoval env u1, steps1 ++ ["Background processed locally"])
    else (u1, steps1)
  let cr : String × List String :=
    if options.smartCrop.getD false then
      (smartCrop env bg.1, bg.2 ++ ["Smart cropped"])
    else bg
  let la : String × List String :=
    if options.convertToLineArt.getD false then
      (convertToLineArt env cr.1, cr.2 ++ ["Converted to line art"])
    else cr
  let final := applyTattooStyling env la.1 (options.autoContrast.getD true)
  { success := true, processedImageUri := some final, originalImageUri := imageUri,
    processingSteps := la.2 ++ ["Tattoo styling applied"],
    format := some OutFormat.PNG, model := some "traditional-pipeline" }

/-- `ultimateFallbackProcessing` (lines 237-274): one basic manipulator
call; throws when the module is missing or the call throws. -/
def ultimateFallbackProcessing (env : Env) (imageUri : String)
    (existingSteps : List String) : Except String ProcessingResult :=
  if !env.imageManipulator then
    .error "No image processing capabilities available"
  else
    match env.manip ManipCall.ultimate imageUri with
    | none => .error "Ultimate fallback failed"
    | some u =>
      .ok { success := true, processedImageUri := some u,
            originalImageUri := imageUri,
            processingSteps := (existingSteps ++ ["Using ultimate fallback processing"])
              ++ ["Basic image processing applied"],
            format := some OutFormat.PNG, model := some "ultimate-fallback" }

/-- The processing tiers of `processImageToTattooDesign`, recorded in the
order their calls happen. -/
inductive Tier
  | starVector
  | localSV
  | traditional
  | ultimate
deriving DecidableEq

/-- The `usingAPI` test (lines 106-108): some step includes
`'StarVector API'` and not `'not available'`. -/
def usingAPI (steps : List String) : Bool :=
  steps.any (fun s => strContains s "StarVector API" && !(strContains s "not available"))

/-- Step 3 of `processImageToTattooDesign` (lines 147-149). -/
def runTier3 (env : Env) (imageUri : String) (fin : ProcessingOptions)
    (steps : List String) (tr : List Tier) : ProcessingResult × List Tier :=
  (traditionalProcessingPipeline env imageUri fin steps, tr ++ [Tier.traditional])

/-- Step 2 of `processImageToTattooDesign` (lines 125-145): local
StarVector-inspired processing when `fallbackToLocal` is set, with its own
failure note, then the traditional pipeline. -/
def runTier2 (env : Env) (imageUri : String) (fin : ProcessingOptions)
    (steps : List String) (tr : List Tier) : ProcessingResult × List Tier :=
  if fin.fallbackToLocal.getD false then
    let lr := processWithLocalStarVector env imageUri {}
    if lr.success then
      ({ success := true, processedImageUri := lr.svgUri, originalImageUri := imageUri,
         processingSteps := steps ++ lr.processingSteps, format := some OutFormat.SVG,
         svgCode := lr.svgCode, model := lr.model }, tr ++ [Tier.localSV])
    else
      runTier3 env imageUri fin (steps ++ ["Local StarVector processing failed"])
        (tr ++ [Tier.localSV])
  else runTier3 env imageUri fin steps tr

/-- `AIImageProcessor.processImageToTattooDesign` (lines 76-167): merge the
defaults, try StarVector when enabled and available, then the local and
traditional tiers.  Every callee catches its own errors, so the function's
outer catch (and with it `ultimateFallbackProcessing`) is unreachable and
the model is total.  The second component records which tiers were
invoked. -/
def processImageToTattooDesign (env : Env) (sv : SVState) (imageUri : String)
    (options : ProcessingOptions) : ProcessingResult × List Tier :=
  let fin := mergeDefaults options
  if fin.useStarVector.getD false && isAvailable env sv then
    let svOpts : StarVectorOptions :=
      { model := fin.starVectorModel, maxTokens := some 2048,
        huggingFaceToken := some "" }
    let r := imageToSVG env sv imageUri svOpts
    if r.success then
      ({ success := true, processedImageUri := r.svgUri, originalImageUri := imageUri,
         processingSteps := r.processingSteps, format := some OutFormat.SVG,
         svgCode := r.svgCode,
         model := if usingAPI r.processingSteps then r.model
                  else some "Enhanced StarVector-inspired (Local)" },
       [Tier.starVector])
    else
      runTier2 env imageUri fin ["StarVector processing not available"] [Tier.starVector]
  else runTier2 env imageUri fin [] []

/-! ## Claims C2, C3, C4 -/

/-- C3: every individual processing step is wrapped in try/fallback: each
helper returns its input uri unchanged when the image-manipulation module
is unavailable, and when the underlying manipulation call throws. -/
theorem step_helpers_return_input_on_failure (env : Env) (uri : String) :
    (env.imageManipulator = false →
      preprocessForAI env uri = uri ∧ localBackgroundRemoval env uri = uri ∧
      smartCrop env uri = uri ∧ convertToLineArt env uri = uri ∧
      ∀ ac, applyTattooStyling env uri ac = uri) ∧
    (env.manip ManipCall.preprocess uri = none → preprocessForAI env uri = uri) ∧
    (env.manip ManipCall.localBg1 uri = none → localBackgroundRemoval env uri = uri) ∧
    (∀ r, env.manip ManipCall.localBg1 uri = some r →
      env.manip ManipCall.localBg2 r = none → localBackgroundRemoval env uri = uri) ∧
    (env.manip ManipCall.smartCrop uri = none → smartCrop env uri = uri) ∧
    (env.manip ManipCall.lineArt uri = none → convertToLineArt env uri = uri) ∧
    (∀ ac, env.manip (ManipCall.styling ac) uri = none →
      applyTattooStyling env uri ac = uri) := by
  refine ⟨fun hm => ?_, fun h => ?_, fun h => ?_, fun r h1 h2 => ?_,
    fun h => ?_, fun h => ?_, fun ac h => ?_⟩
  · exact ⟨by simp [preprocessForAI, hm], by simp [localBackgroundRemoval, hm],
      by simp [smartCrop, hm], by simp [convertToLineArt, hm],
      fun ac => by simp [applyTattooStyling, hm]⟩
  · unfold preprocessForAI
    split
    · rfl
    · rw [h]
  · unfold localBackgroundRemoval
    split
    · rfl
    · rw [h]
  · unfold localBackgroundRemoval
    split
    · rfl
    · rw [h1]
      simp [h2]
  · unfold smartCrop
    split
    · rfl
    · rw [h]
  · unfold convertToLineArt
    split
    · rfl
    · rw [h]
  · unfold applyTattooStyling
    split
    · rfl
    · rw [h]

/-- C4: the remote background-removal services are attempted conditionally
on their API keys; `null` comes back exactly when every attempted service
failed; and in the traditional pipeline a `null` result routes the image
through local background processing. -/
theorem removeBackgroundAI_conditional (env : Env) (uri : String)
    (o : ProcessingOptions) (ex : List String) :
    (BgService.removeBg ∈ (removeBackgroundAI env uri).2 ↔ env.removeBgKey = true) ∧
    (BgService.clipdrop ∈ (removeBackgroundAI env uri).2 ↔
      (env.clipdropKey = true ∧ (env.removeBgKey = true → env.tryRemoveBg uri = none))) ∧
    ((removeBackgroundAI env uri).1 = none ↔
      ((env.removeBgKey = true → env.tryRemoveBg uri = none) ∧
       (env.clipdropKey = true → env.tryClipDrop uri = none))) ∧
    (o.removeBackground.getD false = true →
      (removeBackgroundAI env (preprocessForAI env uri)).1 = none →
      "Background processed locally" ∈
        (traditionalProcessingPipeline env uri o ex).processingSteps) := by
  refine ⟨?_, ?_, ?_, fun hrb hnone => ?_⟩
  · unfold removeBackgroundAI
    by_cases hr : env.removeBgKey = true
    · cases htr : env.tryRemoveBg uri <;>
        by_cases hc : env.clipdropKey = true <;> simp [hr, htr, hc]
    · by_cases hc : env.clipdropKey = true <;> simp [hr, hc]
  · unfold removeBackgroundAI
    by_cases hr : env.removeBgKey = true
    · cases htr : env.tryRemoveBg uri <;>
        by_cases hc : env.clipdropKey = true <;> simp [hr, htr, hc]
    · by_cases hc : env.clipdropKey = true <;> simp [hr, hc]
  · unfold removeBackgroundAI
    by_cases hr : env.removeBgKey = true
    · cases htr : env.tryRemoveBg uri <;>
        by_cases hc : env.clipdropKey = true <;> simp [hr, htr, hc]
    · by_cases hc : env.clipdropKey = true <;> simp [hr, hc]
  · unfold traditionalProcessingPipeline
    simp only [hrb, hnone, if_true]
    split <;> split <;> simp

/-- C2: the traditional pipeline runs its stages in a fixed order -
preprocessing, conditional background removal, conditional smart crop,
conditional line art, then styling - records exactly those completed steps
in that order, and returns format PNG with model `traditional-pipeline`. -/
theorem traditionalPipeline_fixed_order (env : Env) (uri : String)
    (o : ProcessingOptions) (ex : List String) :
    (traditionalProcessingPipeline env uri o ex).success = true ∧
    (traditionalProcessingPipeline env uri o ex).format = some OutFormat.PNG ∧
    (traditionalProcessingPipeline env uri o ex).model = some "traditional-pipeline" ∧
    (traditionalProcessingPipeline env uri o ex).processingSteps =
      ex ++ ["Using traditional processing pipeline", "Image preprocessed"]
        ++ (if o.removeBackground.getD false then
              [if (removeBackgroundAI env (preprocessForAI env uri)).1.isSome
                 then "Background removed using AI"
                 else "Background processed locally"]
            else [])
        ++ (if o.smartCrop.getD false then ["Smart cropped"] else [])
        ++ (if o.convertToLineArt.getD false then ["Converted to line art"] else [])
        ++ ["Tattoo styling applied"] := by
  refine ⟨rfl, rfl, rfl, ?_⟩
  unfold traditionalProcessingPipeline
  rcases hbg : (removeBackgroundAI env (preprocessForAI env uri)).1 with _ | b <;>
    by_cases hrb : o.removeBackground.getD false = true <;>
    by_cases hsc : o.smartCrop.getD false = true <;>
    by_cases hla : o.convertToLineArt.getD false = true <;>
      simp [hbg, hrb, hsc, hla]

/-! ## Lemmas about the SVG string processing -/

theorem csStarts_svg_elim (l : List Char) (h : csStarts svgOpenL l = true) :
    ∃ x, l = '<' :: 's' :: 'v' :: 'g' :: x := by
  rcases l with _ | ⟨c1, _ | ⟨c2, _ | ⟨c3, _ | ⟨c4, x⟩⟩⟩⟩ <;>
    simp [svgOpenL, csStarts] at h
  obtain ⟨e1, e2, e3, e4⟩ := h
  subst e1; subst e2; subst e3; subst e4
  exact ⟨x, rfl⟩

theorem ciStarts_svg_elim (l : List Char) (h : ciStarts svgOpenL l = true) :
    ∃ c1 c2 c3 c4 x, l = c1 :: c2 :: c3 :: c4 :: x ∧
      asciiLower c1 = '<' ∧ asciiLower c2 = 's' ∧
      asciiLower c3 = 'v' ∧ asciiLower c4 = 'g' := by
  rcases l with _ | ⟨c1, _ | ⟨c2, _ | ⟨c3, _ | ⟨c4, x⟩⟩⟩⟩ <;>
    simp [svgOpenL, ciStarts] at h
  obtain ⟨e1, e2, e3, e4⟩ := h
  exact ⟨c1, c2, c3, c4, x, rfl, e1, e2, e3, e4⟩

theorem ciStarts_of_asciiLower_heads (c1 c2 c3 c4 : Char) (x : List Char)
    (e1 : asciiLower c1 = '<') (e2 : asciiLower c2 = 's')
    (e3 : asciiLower c3 = 'v') (e4 : asciiLower c4 = 'g') :
    ciStarts svgOpenL (c1 :: c2 :: c3 :: c4 :: x) = true := by
  simp [svgOpenL, ciStarts, e1, e2, e3, e4]

/-- A character whose ASCII lower-case is `x` differs from any character
`y` that is its own lower-case and differs from `x`. -/
theorem ne_of_asciiLower {c x y : Char} (h : asciiLower c = x)
    (hy : asciiLower y = y) (hxy : x ≠ y) : c ≠ y := by
  intro hc
  apply hxy
  rw [← h, hc, hy]

theorem ciStarts_drop_findFirstCI (pat : List Char) (l : List Char) :
    ∀ i, findFirstCI pat l = some i → ciStarts pat (l.drop i) = true := by
  induction l with
  | nil =>
    intro i h
    unfold findFirstCI at h
    split at h
    · cases h
      simpa using (by assumption)
    · cases h
  | cons c rest ih =>
    intro i h
    unfold findFirstCI at h
    split at h
    · cases h
      simpa using (by assumption)
    · rcases Option.map_eq_some'.mp h with ⟨j, hj, hij⟩
      subst hij
      simpa using ih j hj

theorem ciStarts_take (pat : List Char) :
    ∀ (l : List Char) (n : Nat), ciStarts pat l = true → pat.length ≤ n →
      ciStarts pat (l.take n) = true := by
  induction pat with
  | nil => intro l n _ _; simp [ciStarts]
  | cons p ps ih =>
    intro l n h hn
    cases l with
    | nil => simp [ciStarts] at h
    | cons c cs =>
      cases n with
      | zero => simp at hn
      | succ m =>
        rw [List.take_succ_cons]
        unfold ciStarts at h ⊢
        simp only [Bool.and_eq_true] at h ⊢
        exact ⟨h.1, ih cs m h.2 (by simpa using hn)⟩

theorem ciStarts_regexGreedy (l frag : List Char)
    (h : regexSvgMatchGreedy l = some frag) : ciStarts svgOpenL frag = true := by
  unfold regexSvgMatchGreedy at h
  rcases hf : findFirstCI svgOpenL l with _ | i <;> rw [hf] at h
  · cases h
  rcases hp : findLastCI svgCloseL l with _ | p <;> rw [hp] at h
  · cases h
  dsimp only at h
  by_cases hip : i + 4 ≤ p
  · rw [if_pos hip] at h
    cases h
    exact ciStarts_take _ _ _ (ciStarts_drop_findFirstCI _ _ _ hf) (by
      have h4 : svgOpenL.length = 4 := rfl
      omega)
  · rw [if_neg hip] at h
    cases h

theorem rmEmptyLines_cons (c : Char) (r : List Char) (h : (c == '\n') = false) :
    rmEmptyLines (c :: r) = c :: rmEmptyLines r := by
  simp [rmEmptyLines, rmelGo, h]

theorem rmTagWs_cons (c : Char) (r : List Char) (h : (c == '>') = false) :
    rmTagWs (c :: r) = c :: rmTagWs r := by
  simp [rmTagWs, rmtGo, h]

/-- The cleanup replacements keep a (case-insensitive) `<svg` head: none of
the four head characters can be `\n` or `>`. -/
theorem cleanup_ciStarts_svg (l : List Char) (h : ciStarts svgOpenL l = true) :
    ciStarts svgOpenL (cleanupL l) = true := by
  obtain ⟨c1, c2, c3, c4, x, rfl, e1, e2, e3, e4⟩ := ciStarts_svg_elim l h
  have n1 := ne_of_asciiLower e1 (y := '\n') (by decide) (by decide)
  have n2 := ne_of_asciiLower e2 (y := '\n') (by decide) (by decide)
  have n3 := ne_of_asciiLower e3 (y := '\n') (by decide) (by decide)
  have n4 := ne_of_asciiLower e4 (y := '\n') (by decide) (by decide)
  have g1 := ne_of_asciiLower e1 (y := '>') (by decide) (by decide)
  have g2 := ne_of_asciiLower e2 (y := '>') (by decide) (by decide)
  have g3 := ne_of_asciiLower e3 (y := '>') (by decide) (by decide)
  have g4 := ne_of_asciiLower e4 (y := '>') (by decide) (by decide)
  unfold cleanupL
  rw [rmEmptyLines_cons _ _ (by simpa using n1), rmEmptyLines_cons _ _ (by simpa using n2),
      rmEmptyLines_cons _ _ (by simpa using n3), rmEmptyLines_cons _ _ (by simpa using n4),
      rmTagWs_cons _ _ (by simpa using g1), rmTagWs_cons _ _ (by simpa using g2),
      rmTagWs_cons _ _ (by simpa using g3), rmTagWs_cons _ _ (by simpa using g4)]
  exact ciStarts_of_asciiLower_heads _ _ _ _ _ e1 e2 e3 e4

theorem validate_ok_ciStarts (l out : List Char)
    (h : validateAndCleanSVGL l = .ok out) : ciStarts svgOpenL out = true := by
  simp only [validateAndCleanSVGL] at h
  split at h
  · cases h
    apply cleanup_ciStarts_svg
    obtain ⟨x, hx⟩ := csStarts_svg_elim _ (by assumption)
    rw [hx]
    exact ciStarts_of_asciiLower_heads _ _ _ _ _ (by decide) (by decide) (by decide) (by decide)
  · split at h
    · cases h
      exact cleanup_ciStarts_svg _ (ciStarts_regexGreedy _ _ (by assumption))
    · cases h

theorem validate_ok_ciStartsStr (s out : String)
    (h : validateAndCleanSVG s = .ok out) : ciStartsStr out "<svg" = true := by
  unfold validateAndCleanSVG at h
  cases hv : validateAndCleanSVGL s.data with
  | error e => rw [hv] at h; simp [Except.map] at h
  | ok l =>
    rw [hv] at h
    simp [Except.map] at h
    subst h
    exact validate_ok_ciStarts _ _ hv

theorem slwc_cons (lit : List Char) (cls : Char → Bool) (repl : List Char)
    (c : Char) (r : List Char) (h : csStarts lit (c :: r) = false) :
    substLitWsClass lit cls repl (c :: r) = c :: substLitWsClass lit cls repl r := by
  simp [substLitWsClass, slwcGo, h]

theorem replaceFirst_of_csStarts (pat repl : List Char) (c : Char) (r : List Char)
    (h : csStarts pat (c :: r) = true) :
    replaceFirstL pat repl (c :: r) = repl ++ (c :: r).drop pat.length := by
  simp [replaceFirstL, h]

theorem csStarts_append_left (pat : List Char) :
    ∀ (l t : List Char), csStarts pat l = true → csStarts pat (l ++ t) = true := by
  induction pat with
  | nil => intro l t _; simp [csStarts]
  | cons p ps ih =>
    intro l t h
    cases l with
    | nil => simp [csStarts] at h
    | cons c cs =>
      rw [List.cons_append]
      unfold csStarts at h ⊢
      simp only [Bool.and_eq_true] at h ⊢
      exact ⟨h.1, ih cs t h.2⟩

theorem csStarts_strokeWidth_false (c : Char) (r : List Char)
    (h : ('s' == c) = false) : csStarts ("stroke-width:").data (c :: r) = false := by
  rw [show ("stroke-width:").data =
    's' :: 't' :: 'r' :: 'o' :: 'k' :: 'e' :: '-' :: 'w' :: 'i' :: 'd' :: 't' :: 'h' :: ':' :: ([] : List Char) from rfl]
  simp [csStarts, h]

theorem csStarts_strokeWidth_false2 (d : Char) (r : List Char)
    (h : ('t' == d) = false) : csStarts ("stroke-width:").data ('s' :: d :: r) = false := by
  rw [show ("stroke-width:").data =
    's' :: 't' :: 'r' :: 'o' :: 'k' :: 'e' :: '-' :: 'w' :: 'i' :: 'd' :: 't' :: 'h' :: ':' :: ([] : List Char) from rfl]
  simp [csStarts, h]

theorem csStarts_stroke_false (c : Char) (r : List Char)
    (h : ('s' == c) = false) : csStarts ("stroke:").data (c :: r) = false := by
  rw [show ("stroke:").data = 's' :: 't' :: 'r' :: 'o' :: 'k' :: 'e' :: ':' :: ([] : List Char) from rfl]
  simp [csStarts, h]

theorem csStarts_stroke_false2 (d : Char) (r : List Char)
    (h : ('t' == d) = false) : csStarts ("stroke:").data ('s' :: d :: r) = false := by
  rw [show ("stroke:").data = 's' :: 't' :: 'r' :: 'o' :: 'k' :: 'e' :: ':' :: ([] : List Char) from rfl]
  simp [csStarts, h]

theorem csStarts_fill_false (c : Char) (r : List Char)
    (h : ('f' == c) = false) : csStarts ("fill:").data (c :: r) = false := by
  rw [show ("fill:").data = 'f' :: 'i' :: 'l' :: 'l' :: ':' :: ([] : List Char) from rfl]
  simp [csStarts, h]

theorem slwc_head4 (lit : List Char) (cls : Char → Bool) (repl : List Char)
    (c1 c2 c3 c4 : Char) (x : List Char)
    (h1 : csStarts lit (c1 :: c2 :: c3 :: c4 :: x) = false)
    (h2 : csStarts lit (c2 :: c3 :: c4 :: x) = false)
    (h3 : csStarts lit (c3 :: c4 :: x) = false)
    (h4 : csStarts lit (c4 :: x) = false) :
    substLitWsClass lit cls repl (c1 :: c2 :: c3 :: c4 :: x) =
      c1 :: c2 :: c3 :: c4 :: substLitWsClass lit cls repl x := by
  rw [slwc_cons _ _ _ _ _ h1, slwc_cons _ _ _ _ _ h2, slwc_cons _ _ _ _ _ h3,
      slwc_cons _ _ _ _ _ h4]

/-- `optimizeSVGForTattoo` keeps a case-sensitive `<svg` head: the three
substitution literals cannot match inside the four head characters, and the
final replacement rewrites that head to the tag text, which itself starts
with `<svg`. -/
theorem optL_starts (l : List Char) (h : csStarts svgOpenL l = true) :
    csStarts svgOpenL (optL l) = true := by
  obtain ⟨x, rfl⟩ := csStarts_svg_elim l h
  unfold optL
  rw [slwc_head4 _ _ _ _ _ _ _ _
        (csStarts_strokeWidth_false _ _ (by decide))
        (csStarts_strokeWidth_false2 _ _ (by decide))
        (csStarts_strokeWidth_false _ _ (by decide))
        (csStarts_strokeWidth_false _ _ (by decide)),
      slwc_head4 _ _ _ _ _ _ _ _
        (csStarts_stroke_false _ _ (by decide))
        (csStarts_stroke_false2 _ _ (by decide))
        (csStarts_stroke_false _ _ (by decide))
        (csStarts_stroke_false _ _ (by decide)),
      slwc_head4 _ _ _ _ _ _ _ _
        (csStarts_fill_false _ _ (by decide))
        (csStarts_fill_false _ _ (by decide))
        (csStarts_fill_false _ _ (by decide))
        (csStarts_fill_false _ _ (by decide)),
      replaceFirst_of_csStarts _ _ _ _ (by simp [svgOpenL, csStarts])]
  exact csStarts_append_left _ _ _ (by decide)

/-- The generated template starts with `<svg`. -/
theorem svgTemplate_starts (w h : Nat) :
    csStarts svgOpenL (svgTemplate w h).data = true := by
  unfold svgTemplate
  rw [String.data_append]
  exact csStarts_append_left _ _ _ (by decide)

/-- A case-sensitive `<svg` head is in particular a case-insensitive one. -/
theorem ciStarts_of_csStarts_svg (l : List Char) (h : csStarts svgOpenL l = true) :
    ciStarts svgOpenL l = true := by
  obtain ⟨x, rfl⟩ := csStarts_svg_elim l h
  exact ciStarts_of_asciiLower_heads _ _ _ _ _ (by decide) (by decide) (by decide) (by decide)

/-- A successful local StarVector-inspired result carries a saved uri and
the optimised SVG code, which starts with `<svg`. -/
theorem processWithLocalStarVector_success (env : Env) (uri : String)
    (o : StarVectorOptions) :
    (processWithLocalStarVector env uri o).success = true →
      (processWithLocalStarVector env uri o).svgUri.isSome = true ∧
      ∃ c, (processWithLocalStarVector env uri o).svgCode = some c ∧
        ciStartsStr c "<svg" = true := by
  unfold processWithLocalStarVector
  rcases hsv : saveSVGToFile env
      (optimizeSVGForTattoo (generateSVGFromAnalysis env (analyzeImageForVectors uri) uri))
    with e | u <;> simp only [hsv]
  · intro hs
    simp at hs
  · intro _
    refine ⟨by simp, optimizeSVGForTattoo
      (generateSVGFromAnalysis env (analyzeImageForVectors uri) uri), by simp, ?_⟩
    unfold ciStartsStr optimizeSVGForTattoo
    show ciStarts svgOpenL
      (optL (generateSVGFromAnalysis env (analyzeImageForVectors uri) uri).data) = true
    apply ciStarts_of_csStarts_svg
    apply optL_starts
    unfold generateSVGFromAnalysis
    exact svgTemplate_starts _ _

theorem svCatchFallback_success (env : Env) (uri : String) (o : StarVectorOptions)
    (msg : String) (steps : List String) :
    (svCatchFallback env uri o msg steps).success = true →
      (svCatchFallback env uri o msg steps).svgUri.isSome = true ∧
      ∃ c, (svCatchFallback env uri o msg steps).svgCode = some c ∧
        ciStartsStr c "<svg" = true := by
  intro hs
  exact processWithLocalStarVector_success env uri o hs

theorem imageToSVGLocalFallback_success (env : Env) (uri : String)
    (o : StarVectorOptions) (steps : List String) :
    (imageToSVGLocalFallback env uri o steps).success = true →
      (imageToSVGLocalFallback env uri o steps).svgUri.isSome = true ∧
      ∃ c, (imageToSVGLocalFallback env uri o steps).svgCode = some c ∧
        ciStartsStr c "<svg" = true := by
  intro hs
  exact processWithLocalStarVector_success env uri o hs

theorem imageToSVGTryAPI_success (env : Env) (sv : SVState) (uri : String)
    (o : StarVectorOptions) (model b64 : String) (steps : List String) :
    (imageToSVGTryAPI env sv uri o model b64 steps).success = true →
      (imageToSVGTryAPI env sv uri o model b64 steps).svgUri.isSome = true ∧
      ∃ c, (imageToSVGTryAPI env sv uri o model b64 steps).svgCode = some c ∧
        ciStartsStr c "<svg" = true := by
  unfold imageToSVGTryAPI
  cases hinit : (sv.isInitialized && sv.hf)
  · exact imageToSVGLocalFallback_success env uri o steps
  · rcases hapi : callStarVectorAPI env b64 model with _ | svg <;> simp only [hapi]
    · exact imageToSVGLocalFallback_success env uri o steps
    · rcases hval : validateAndCleanSVG svg with e | cleaned <;> simp only [hval]
      · exact svCatchFallback_success env uri o e _
      · rcases hsave : saveSVGToFile env cleaned with e2 | u <;> simp only [hsave]
        · exact svCatchFallback_success env uri o e2 _
        · intro _
          exact ⟨rfl, cleaned, rfl, validate_ok_ciStartsStr _ _ hval⟩

/-- Every successful `imageToSVG` result carries a saved uri and an SVG
code that starts (case-insensitively) with `<svg`. -/
theorem imageToSVG_success (env : Env) (sv : SVState) (uri : String)
    (o : StarVectorOptions) :
    (imageToSVG env sv uri o).success = true →
      (imageToSVG env sv uri o).svgUri.isSome = true ∧
      ∃ c, (imageToSVG env sv uri o).svgCode = some c ∧
        ciStartsStr c "<svg" = true := by
  unfold imageToSVG
  cases hfs : env.fileSystem <;> simp only [hfs, Bool.not_false, Bool.not_true]
  · exact svCatchFallback_success env uri o _ _
  · rcases hread : env.readAsString (prepareImageForStarVector env uri) with _ | b64 <;>
      simp only [hread]
    · exact svCatchFallback_success env uri o _ _
    · cases hv64 : validateBase64Image b64 <;> simp only [hv64, Bool.not_false, Bool.not_true]
      · exact svCatchFallback_success env uri o _ _
      · cases hcpu : (sv.cpuModeEnabled || o.useCPUMode.getD false)
        · exact imageToSVGTryAPI_success env sv uri o _ b64 _
        · cases hchk : env.checkLocal
          · exact imageToSVGTryAPI_success env sv uri o _ b64 _
          · rcases hloc : env.callLocal b64 (if o.model == some SVModel.m8b
                then "starvector/starvector-8b-im2svg"
                else "starvector/starvector-1b-im2svg") with _ | localSvg <;>
              simp only [hloc]
            · exact imageToSVGTryAPI_success env sv uri o _ b64 _
            · rcases hval : validateAndCleanSVG localSvg with e | cleaned <;>
                simp only [hval]
              · exact svCatchFallback_success env uri o e _
              · rcases hsave : saveSVGToFile env cleaned with e2 | u <;>
                  simp only [hsave]
                · exact svCatchFallback_success env uri o e2 _
                · intro _
                  exact ⟨rfl, cleaned, rfl, validate_ok_ciStartsStr _ _ hval⟩

theorem runTier3_facts (env : Env) (uri : String) (fin : ProcessingOptions)
    (steps : List String) (tr : List Tier) :
    (runTier3 env uri fin steps tr).1.success = true ∧
    (runTier3 env uri fin steps tr).1.processedImageUri.isSome = true ∧
    (runTier3 env uri fin steps tr).2 = tr ++ [Tier.traditional] :=
  ⟨rfl, rfl, rfl⟩

theorem runTier2_facts (env : Env) (uri : String) (fin : ProcessingOptions)
    (steps : List String) (tr : List Tier) :
    (runTier2 env uri fin steps tr).1.success = true ∧
    (runTier2 env uri fin steps tr).1.processedImageUri.isSome = true ∧
    ((runTier2 env uri fin steps tr).2 = tr ++ [Tier.localSV] ∨
     (runTier2 env uri fin steps tr).2 = tr ++ [Tier.localSV, Tier.traditional] ∨
     (runTier2 env uri fin steps tr).2 = tr ++ [Tier.traditional]) := by
  unfold runTier2
  by_cases hfb : fin.fallbackToLocal.getD false = true
  · rw [if_pos hfb]
    cases hlr : (processWithLocalStarVector env uri {}).success
    · simp only [hlr]
      refine ⟨rfl, rfl, Or.inr (Or.inl ?_)⟩
      simp [runTier3]
    · simp only [hlr]
      refine ⟨rfl, ?_, Or.inl rfl⟩
      exact (processWithLocalStarVector_success env uri {} hlr).1
  · rw [if_neg hfb]
    exact ⟨rfl, rfl, Or.inr (Or.inr rfl)⟩

/-- The combined behaviour of `processImageToTattooDesign` over every
environment: it always returns (the outer catch is unreachable), the
returned result is a success carrying an image uri, the tier trace
follows the fallback order, and the StarVector tier is entered exactly
when the merged `useStarVector` flag is set and
`StarVectorProcessor.isAvailable()` holds. -/
theorem processImage_facts (env : Env) (sv : SVState) (uri : String)
    (opts : ProcessingOptions) :
    (processImageToTattooDesign env sv uri opts).1.success = true ∧
    (processImageToTattooDesign env sv uri opts).1.processedImageUri.isSome = true ∧
    List.Sublist (processImageToTattooDesign env sv uri opts).2
      [Tier.starVector, Tier.localSV, Tier.traditional, Tier.ultimate] ∧
    (Tier.starVector ∈ (processImageToTattooDesign env sv uri opts).2 ↔
      ((mergeDefaults opts).useStarVector.getD false = true ∧
        isAvailable env sv = true)) := by
  simp only [processImageToTattooDesign]
  by_cases hg : ((mergeDefaults opts).useStarVector.getD false && isAvailable env sv) = true
  · rw [if_pos hg]
    have hga : (mergeDefaults opts).useStarVector.getD false = true ∧
        isAvailable env sv = true := by simpa using hg
    split
    · rename_i hr
      refine ⟨rfl, (imageToSVG_success _ _ _ _ hr).1, ?_, ?_⟩
      · show List.Sublist [Tier.starVector]
          [Tier.starVector, Tier.localSV, Tier.traditional, Tier.ultimate]
        decide
      · simpa using hga
    · rcases runTier2_facts env uri (mergeDefaults opts)
        ["StarVector processing not available"] [Tier.starVector] with ⟨hs, hi, htr⟩
      refine ⟨hs, hi, ?_, ?_⟩
      · rcases htr with h | h | h <;> rw [h] <;> decide
      · rcases htr with h | h | h <;> rw [h] <;> simpa using hga
  · rw [if_neg hg]
    rcases runTier2_facts env uri (mergeDefaults opts) [] [] with ⟨hs, hi, htr⟩
    have hne : ¬((mergeDefaults opts).useStarVector.getD false = true ∧
        isAvailable env sv = true) := by
      intro hua
      exact hg (by rw [hua.1, hua.2]; rfl)
    refine ⟨hs, hi, ?_, ?_⟩
    · rcases htr with h | h | h <;> rw [h] <;> decide
    · rcases htr with h | h | h <;> rw [h] <;> simpa using hne

/-! ## Claims C1, C6, C9, C10 -/

/-- C1: `processImageToTattooDesign` never throws - the model is a total
function of the environment, every callee catching its own errors - and
always yields a `ProcessingResult`; the tiers are invoked in the fixed
fallback order StarVector, local StarVector-inspired, traditional (the
ultimate fallback sits behind the dead outer catch); and a `success =
false` result could arise only after every tier, ultimate fallback
included, had failed - in fact the traditional tier cannot fail, so the
result is always a success. -/
theorem processImage_never_throws (env : Env) (sv : SVState) (uri : String)
    (opts : ProcessingOptions) :
    (processImageToTattooDesign env sv uri opts).1.success = true ∧
    List.Sublist (processImageToTattooDesign env sv uri opts).2
      [Tier.starVector, Tier.localSV, Tier.traditional, Tier.ultimate] ∧
    ((processImageToTattooDesign env sv uri opts).1.success = false →
      Tier.ultimate ∈ (processImageToTattooDesign env sv uri opts).2) := by
  obtain ⟨hs, _, hsub, _⟩ := processImage_facts env sv uri opts
  exact ⟨hs, hsub, fun hf => absurd (hf ▸ hs) (by simp)⟩

/-- C6: the StarVector branch is entered exactly when the merged
`useStarVector` option is set and `isAvailable()` holds; whether it is
skipped or fails, the pipeline still produces a tattoo graphic (a success
result carrying a processed image uri) through the local and traditional
fallbacks. -/
theorem starVector_branch_optional (env : Env) (sv : SVState) (uri : String)
    (opts : ProcessingOptions) :
    (Tier.starVector ∈ (processImageToTattooDesign env sv uri opts).2 ↔
      ((mergeDefaults opts).useStarVector.getD false = true ∧
        isAvailable env sv = true)) ∧
    (processImageToTattooDesign env sv uri opts).1.success = true ∧
    (processImageToTattooDesign env sv uri opts).1.processedImageUri.isSome = true := by
  obtain ⟨hs, hi, _, hiff⟩ := processImage_facts env sv uri opts
  exact ⟨hiff, hs, hi⟩

/-- C9: initialising in CPU mode without a HuggingFace token returns
`true` and marks the processor initialized, yet `isAvailable()` is still
`false` (no client was constructed), so the StarVector branch of
`processImageToTattooDesign` is never entered. -/
theorem cpuMode_initialized_but_unavailable (env : Env) (uri : String)
    (opts : ProcessingOptions) :
    (initializeSV env none true initialSVState).1 = true ∧
    (initializeSV env none true initialSVState).2.isInitialized = true ∧
    isAvailable env (initializeSV env none true initialSVState).2 = false ∧
    Tier.starVector ∉
      (processImageToTattooDesign env (initializeSV env none true initialSVState).2
        uri opts).2 := by
  refine ⟨rfl, rfl, rfl, ?_⟩
  intro hmem
  have h2 := ((processImage_facts env
    (initializeSV env none true initialSVState).2 uri opts).2.2.2.mp hmem).2
  have hav : isAvailable env (initializeSV env none true initialSVState).2 = false := rfl
  rw [hav] at h2
  exact Bool.false_ne_true h2

/-- C10 counterexample: on the input `<SVG></SVG>` (upper-case tags) the
source's case-insensitive regex extracts the fragment unchanged, so
`validateAndCleanSVG` returns a string that does not start with the
(case-sensitive) prefix `<svg`. -/
theorem validateAndCleanSVG_case_counterexample :
    validateAndCleanSVG "<SVG></SVG>" = .ok "<SVG></SVG>" ∧
    csStarts ("<svg").data ("<SVG></SVG>").data = false := by
  exact ⟨rfl, rfl⟩

theorem validateL_error_iff (l : List Char) :
    validateAndCleanSVGL l = .error "Invalid SVG code generated" ↔
      (csStarts svgOpenL (jsTrimL l) = false ∧
        regexSvgMatchGreedy (jsTrimL l) = none) := by
  simp only [validateAndCleanSVGL]
  cases hcs : csStarts svgOpenL (jsTrimL l)
  · rcases hm : regexSvgMatchGreedy (jsTrimL l) with _ | f <;> simp [hm]
  · simp

/-- C10 (amended): `validateAndCleanSVG` returns a string that starts with
`<svg` up to ASCII case (the source's extraction regex is
case-insensitive while `startsWith` is case-sensitive); it throws
`Invalid SVG code generated` exactly when the trimmed input neither starts
with `<svg` nor contains a greedy case-insensitive `<svg ... </svg>`
fragment; and consequently the `svgCode` of every successful
`StarVectorResult` - the API path included - starts with `<svg` up to
ASCII case. -/
theorem validateAndCleanSVG_amended (s : String) (env : Env) (sv : SVState)
    (uri : String) (o : StarVectorOptions) :
    (∀ out, validateAndCleanSVG s = .ok out → ciStartsStr out "<svg" = true) ∧
    (validateAndCleanSVG s = .error "Invalid SVG code generated" ↔
      (csStarts svgOpenL (jsTrimL s.data) = false ∧
        regexSvgMatchGreedy (jsTrimL s.data) = none)) ∧
    ((imageToSVG env sv uri o).success = true →
      ∃ c, (imageToSVG env sv uri o).svgCode = some c ∧
        ciStartsStr c "<svg" = true) := by
  refine ⟨fun out h => validate_ok_ciStartsStr s out h, ?_,
    fun hs => (imageToSVG_success env sv uri o hs).2⟩
  rw [← validateL_error_iff s.data]
  unfold validateAndCleanSVG
  cases hv : validateAndCleanSVGL s.data <;> simp [Except.map, hv]
